import Mathlib

/-!
Verification of the Isherwood Developments property-listing backend
(src/main.py, src/schemas.py) through a shallow embedding.

Python strings are modelled as Lean `String` (ASCII semantics for
case-mapping), Python floats as exact rationals, optional fields as
`Option`, the Mongo collection as a list of documents carrying a
store-assigned numeric id, and each HTTP handler as a pure function of
the store state and its parameters.
-/

namespace Isherwood

/-- Substring test: does `kw` occur as a contiguous run inside `q`?
Models the Python `in` operator on strings (src/main.py lines 115-143). -/
def infixOf (kw : List Char) : List Char → Bool
  | [] => kw.isEmpty
  | c :: t => kw.isPrefixOf (c :: t) || infixOf kw t

/-- Python `kw in q` for strings. -/
def kwIn (q kw : String) : Bool := infixOf kw.data q.data

/-- ASCII model of Python `str.lower()` (src/main.py line 111). -/
def pyLower (s : String) : String := ⟨s.data.map Char.toLower⟩

/-- ASCII model of Python `str.title()`: a letter is upper-cased exactly
when the preceding character is not a letter, and lower-cased otherwise.
The boolean argument records whether the previous character was a letter. -/
def pyTitleAux : Bool → List Char → List Char
  | _, [] => []
  | prev, c :: cs =>
    if c.isAlpha then (if prev then c.toLower else c.toUpper) :: pyTitleAux true cs
    else c :: pyTitleAux false cs

/-- ASCII model of Python `str.title()`. -/
def pyTitle (s : String) : String := ⟨pyTitleAux false s.data⟩

/-- Insert `','` after every third character of a reversed digit list. -/
def groupRev : List Char → List Char
  | a :: b :: c :: d :: rest => a :: b :: c :: ',' :: groupRev (d :: rest)
  | l => l

/-- Thousands separators: `"12500000"` becomes `"12,500,000"`. -/
def commaGroup (s : String) : String := ⟨(groupRev s.data.reverse).reverse⟩

/-- Round `n / d` (with `d > 0`) to the nearest integer, ties to even:
the rounding mode used by Python numeric formatting. -/
def roundHalfEvenInt (n d : Int) : Int :=
  let q := Int.fdiv n d
  let r := n - q * d
  if 2 * r < d then q
  else if d < 2 * r then q + 1
  else if q % 2 = 0 then q else q + 1

/-- Model of the Python format spec `{x:,.0f}` on an exact rational:
round half-to-even to an integer and render it with thousands
separators (src/main.py lines 117 and 123). -/
def fmtComma0 (x : ℚ) : String :=
  let c := roundHalfEvenInt x.num (x.den : Int)
  (if c < 0 then "-" else "") ++ commaGroup (toString c.natAbs)

/-- Zero-padded two-digit rendering of `n < 100`. -/
def twoDigits (n : Nat) : String := (if n < 10 then "0" else "") ++ toString n

/-- Model of the Python format spec `{x:.2f}`: round to two decimal
places, ties to even (src/main.py line 125). -/
def fmt2 (x : ℚ) : String :=
  let c := roundHalfEvenInt (x.num * 100) (x.den : Int)
  (if c < 0 then "-" else "") ++ toString (c.natAbs / 100) ++ "." ++ twoDigits (c.natAbs % 100)

/-- Python `sep.join(lines)` (src/main.py lines 138 and 152). -/
def pyJoin (sep : String) : List String → String
  | [] => ""
  | [x] => x
  | x :: xs => x ++ sep ++ pyJoin sep xs

/-- The `Property` schema of src/schemas.py. Python floats are modelled
as exact rationals, optional fields as `Option`, and the `Literal`
enumerations as strings (their membership constraints are validation
concerns outside the claims proved here). Defaults follow the schema. -/
structure Property where
  name : String
  slug : String
  summary : String
  description : String
  address : String
  city : String
  province : String
  country : String := "Canada"
  images : List String := []
  category : String
  development_type : Option String := none
  commercial_type : Option String := none
  hospitality_type : Option String := none
  size_sqft : Option ℚ := none
  lot_acres : Option ℚ := none
  year_built : Option Int := none
  status : String := "available"
  price : Option ℚ := none
  highlights : List String := []
  coordinates : Option (ℚ × ℚ) := none
deriving DecidableEq

/-- A document as stored: the listing together with the store-assigned
`_id`, modelled as a natural number. -/
structure StoredDoc where
  oid : Nat
  prop : Property
deriving DecidableEq

/-- Modelled from the spec: the Record Store collaborator (`database.py`
is imported by src/main.py but absent from src/) — "a document database
holding one collection of listing records" (spec section 2) plus the
counter from which the store assigns each inserted document its id
(spec section 3: "an internally generated id assigned by the store on
insert"). -/
structure Store where
  nextId : Nat
  docs : List StoredDoc
deriving DecidableEq

/-- Modelled from the spec: `create_document` of the absent
`database.py` — "supports insert-one" (spec section 2); it appends the
document, assigns it the next id, and returns that id. -/
def create_document (st : Store) (p : Property) : Nat × Store :=
  (st.nextId, ⟨st.nextId + 1, st.docs ++ [⟨st.nextId, p⟩]⟩)

/-- Modelled from the spec: Mongo `find_one({"slug": slug})` as used on
src/main.py lines 69, 80 and 94 — the first stored document whose slug
matches ("queried by exact-match field filters and by unique slug",
spec section 2). -/
def find_one_slug (st : Store) (slug : String) : Option StoredDoc :=
  st.docs.find? (fun d => d.prop.slug == slug)

/-- An HTTP error raised by a handler (`HTTPException` in src/main.py). -/
structure HTTPError where
  status : Nat
  detail : String
deriving DecidableEq

/-- A document as returned to the client: the internal `_id` renamed to
a string `id` field (src/main.py lines 62 and 72). -/
structure DocOut where
  id : String
  prop : Property
deriving DecidableEq

/-- One conditional entry of the filter dict built by `list_properties`
(src/main.py lines 46-57): a falsy value — absent, or the empty
string — contributes no key. -/
def qslot (key : String) (v : Option String) : List (String × String) :=
  match v with
  | some s => if s = "" then [] else [(key, s)]
  | none => []

/-- The query dict built by `list_properties` (src/main.py lines 45-57),
as an association list in insertion order. -/
def buildQuery (category development_type commercial_type hospitality_type city status : Option String) :
    List (String × String) :=
  qslot "category" category ++ qslot "development_type" development_type ++
    qslot "commercial_type" commercial_type ++ qslot "hospitality_type" hospitality_type ++
    qslot "city" city ++ qslot "status" status

/-- Modelled from the spec: exact match of one query key against a
stored Listing; the six keys are the recognized filter fields of spec
section 4.1. -/
def fieldEq (p : Property) (key v : String) : Bool :=
  match key with
  | "category" => p.category == v
  | "development_type" => p.development_type == some v
  | "commercial_type" => p.commercial_type == some v
  | "hospitality_type" => p.hospitality_type == some v
  | "city" => p.city == v
  | "status" => p.status == v
  | _ => false

/-- Modelled from the spec: `get_documents` of the absent `database.py`
— "Returns up to `limit` matching Listings" where every query key must
match exactly (spec section 4.1), in store order. -/
def get_documents (st : Store) (query : List (String × String)) (limit : Nat) : List StoredDoc :=
  (st.docs.filter (fun d => query.all (fun kv => fieldEq d.prop kv.1 kv.2))).take limit

/-- `GET /properties` (src/main.py lines 34-63). -/
def list_properties (st : Store) (category development_type commercial_type hospitality_type city status : Option String) (limit : Nat) : List DocOut :=
  (get_documents st (buildQuery category development_type commercial_type hospitality_type city status) limit).map
    (fun d => ⟨toString d.oid, d.prop⟩)

/-- `GET /properties/{slug}` (src/main.py lines 66-73). -/
def get_property (st : Store) (slug : String) : Except HTTPError DocOut :=
  match find_one_slug st slug with
  | none => .error ⟨404, "Property not found"⟩
  | some d => .ok ⟨toString d.oid, d.prop⟩

/-- `POST /properties` (src/main.py lines 76-84); the result pairs the
HTTP outcome with the store state after the call. -/
def create_property (st : Store) (payload : Property) : Except HTTPError String × Store :=
  match find_one_slug st payload.slug with
  | some _ => (.error ⟨400, "Slug already exists"⟩, st)
  | none =>
    let r := create_document st payload
    (.ok (toString r.1), r.2)

/-- Price-topic keywords (src/main.py line 115). -/
def priceKw (q : String) : Bool := kwIn q "price" || kwIn q "cost" || kwIn q "listing"

/-- Size-topic keywords (src/main.py line 121). -/
def sizeKw (q : String) : Bool := kwIn q "size" || kwIn q "square" || kwIn q "sqft"

/-- Zoning-topic keywords (src/main.py line 127). -/
def zoningKw (q : String) : Bool := kwIn q "zoning" || kwIn q "use" || kwIn q "type"

/-- Status-topic keywords (src/main.py line 140). -/
def statusKw (q : String) : Bool := kwIn q "status" || kwIn q "available"

/-- The keyword list of the fallback guard (src/main.py line 143). -/
def allKeywords : List String :=
  ["price", "cost", "listing", "size", "square", "sqft", "zoning", "use", "type", "status", "available"]

/-- The fallback guard `any(keyword in q for keyword in [...])`
(src/main.py line 143). -/
def topicKw (q : String) : Bool := allKeywords.any (fun k => kwIn q k)

/-- The opening line of every reply (src/main.py line 113). -/
def openingLine (doc : Property) : String :=
  "You're asking about " ++ (doc.name ++ (" in " ++ (doc.city ++ ". Here's what I can share:")))

/-- Lines of the Price topic (src/main.py lines 115-119); the source
tests `price is not None`, so a zero price is still rendered. -/
def priceLines (doc : Property) : List String :=
  match doc.price with
  | some p => ["- Current guidance price is $" ++ (fmtComma0 p ++ ".")]
  | none => ["- Pricing is available upon request."]

/-- Lines of the Size topic (src/main.py lines 121-125); `if size:` and
`if acres:` are truthiness tests, false for `None` and for zero. -/
def sizeLines (doc : Property) : List String :=
  (match doc.size_sqft with
   | some s => if s = 0 then [] else ["- Interior size is approx. " ++ (fmtComma0 s ++ " sq ft.")]
   | none => []) ++
  (match doc.lot_acres with
   | some a => if a = 0 then [] else ["- Lot size is approx. " ++ (fmt2 a ++ " acres.")]
   | none => [])

/-- The `parts` list of the Zoning topic (src/main.py lines 128-136);
each truthy field contributes its title-cased value, in fixed order. -/
def zoningParts (doc : Property) : List String :=
  (if doc.category = "" then [] else [pyTitle doc.category]) ++
    (match doc.development_type with
     | some d => if d = "" then [] else [pyTitle d]
     | none => []) ++
    (match doc.commercial_type with
     | some c => if c = "" then [] else [pyTitle c]
     | none => []) ++
    (match doc.hospitality_type with
     | some h => if h = "" then [] else [pyTitle h]
     | none => [])

/-- Lines of the Zoning topic (src/main.py lines 137-138). -/
def zoningLines (doc : Property) : List String :=
  if zoningParts doc = [] then []
  else ["- Property type: " ++ pyJoin ", " (zoningParts doc)]

/-- The Status-topic line (src/main.py line 141). -/
def statusLine (doc : Property) : String :=
  "- Status: " ++ (if doc.status = "" then "Available" else pyTitle doc.status)

/-- The fixed fallback prompt (src/main.py line 150). -/
def promptLine : String :=
  "Let me know if you'd like details on price, size, zoning, or availability."

/-- Lines of the fallback branch (src/main.py lines 144-150): a header
plus the first five highlights as bullets when `highlights` is truthy,
and the fixed prompt when it is empty. -/
def fallbackLines (doc : Property) : List String :=
  (if doc.highlights = [] then []
   else "Key highlights:" :: (doc.highlights.take 5).map (fun h => "  • " ++ h)) ++
    (if doc.highlights = [] then [promptLine] else [])

/-- The reply lines built by `chat_about_property` from the stored
document and the question (src/main.py lines 111-151). -/
def respondLines (doc : Property) (message : String) : List String :=
  [openingLine doc] ++
    (if priceKw (pyLower message) then priceLines doc else []) ++
    (if sizeKw (pyLower message) then sizeLines doc else []) ++
    (if zoningKw (pyLower message) then zoningLines doc else []) ++
    (if statusKw (pyLower message) then [statusLine doc] else []) ++
    (if topicKw (pyLower message) then [] else fallbackLines doc)

/-- The reply string `"\n".join(lines)` (src/main.py line 152). -/
def respond (doc : Property) (message : String) : String :=
  pyJoin "\n" (respondLines doc message)

/-- `POST /properties/{slug}/chat` (src/main.py lines 91-153). -/
def chat_about_property (st : Store) (slug : String) (message : String) : Except HTTPError String :=
  match find_one_slug st slug with
  | none => .error ⟨404, "Property not found"⟩
  | some d => .ok (respond d.prop message)

/-- First sample Listing of `seed_demo` (src/main.py lines 164-182). -/
def samplePlaza : Property :=
  { name := "Isherwood Plaza"
    slug := "isherwood-plaza"
    summary := "Modern retail plaza with excellent frontage"
    description := "A high-visibility retail plaza with ample parking and strong tenant mix."
    address := "123 Main St"
    city := "Cambridge"
    province := "ON"
    country := "Canada"
    images := []
    category := "commercial"
    commercial_type := some "plaza"
    size_sqft := some (mkRat 45000 1)
    lot_acres := some (mkRat 7 2)
    year_built := some 2010
    status := "available"
    price := some (mkRat 12500000 1)
    highlights := ["Prime corner exposure", "Ample surface parking", "Strong traffic counts"] }

/-- Second sample Listing of `seed_demo` (src/main.py lines 183-201). -/
def sampleTowers : Property :=
  { name := "Riverside Towers"
    slug := "riverside-towers"
    summary := "Waterfront high-rise residential development"
    description := "Proposed twin-tower high rise with panoramic river views."
    address := "500 Riverside Dr"
    city := "Kitchener"
    province := "ON"
    country := "Canada"
    images := []
    category := "development"
    development_type := some "high rise"
    size_sqft := none
    lot_acres := some (mkRat 11 5)
    year_built := none
    status := "under development"
    price := none
    highlights := ["Waterfront location", "Transit adjacent", "Zoning in progress"] }

/-- Third sample Listing of `seed_demo` (src/main.py lines 202-219). -/
def sampleIndustrial : Property :=
  { name := "Isherwood Industrial Park"
    slug := "isherwood-industrial-park"
    summary := "Modern industrial bays with clear heights"
    description := "Flex industrial with loading docks and ample marshalling."
    address := "200 Industry Rd"
    city := "Guelph"
    province := "ON"
    country := "Canada"
    images := []
    category := "commercial"
    commercial_type := some "industrial"
    size_sqft := some (mkRat 120000 1)
    lot_acres := some (mkRat 8 1)
    status := "available"
    price := some (mkRat 28900000 1)
    highlights := ["32' clear height", "ESFR sprinklers", "Multiple dock doors"] }

/-- Fourth sample Listing of `seed_demo` (src/main.py lines 220-235). -/
def sampleRetirement : Property :=
  { name := "Grandview Retirement Residence"
    slug := "grandview-retirement-residence"
    summary := "Thoughtfully designed retirement community"
    description := "A full-service retirement home with wellness amenities."
    address := "88 Grandview Ave"
    city := "Waterloo"
    province := "ON"
    country := "Canada"
    images := []
    category := "hospitality"
    hospitality_type := some "retirement"
    status := "available"
    price := none
    highlights := ["On-site healthcare", "Chef-led dining", "Landscaped courtyards"] }

/-- The `samples` list of `seed_demo` (src/main.py lines 163-236). -/
def samples : List Property :=
  [samplePlaza, sampleTowers, sampleIndustrial, sampleRetirement]

/-- `POST /seed` (src/main.py lines 156-241): the response message and
count, paired with the store state after the call. The document count
`count_documents({})` of the absent `database.py` is modelled from the
spec as the size of the collection. -/
def seed_demo (st : Store) : (String × Nat) × Store :=
  let count := st.docs.length
  if count > 0 then (("Collection already seeded", count), st)
  else
    (("Seeded demo properties", samples.length),
      samples.foldl (fun s p => (create_document s p).2) st)

/-- The first three characters of a reply line, used to tell the
line families of the responder apart. -/
def take3 (l : String) : List Char := l.data.take 3

/-- The four characters that open the Status line and no other line. -/
def statusHead : List Char := "- St".data

/-- Does a reply line start with `- St`? Only the Status line does. -/
def isStatusLine (l : String) : Bool := l.data.take 4 == statusHead

/-- Replace an empty-string filter value by an absent one; all other
values are kept. -/
def orNone (v : Option String) : Option String :=
  match v with
  | some s => if s = "" then none else some s
  | none => none

/-- A Listing whose `lot_acres` is present (non-null) but zero. -/
def lotZeroListing : Property := { samplePlaza with lot_acres := some (mkRat 0 1) }

/-- Appending strings appends their character data. -/
theorem string_data_append (a b : String) : (a ++ b).data = a.data ++ b.data := by
  cases a
  cases b
  rfl

/-- Taking at most the length of the left part of an appended string
ignores the right part. -/
theorem take_string_append (p r : String) (n : Nat) (h : n ≤ p.data.length) :
    (p ++ r).data.take n = p.data.take n := by
  rw [string_data_append]
  exact List.take_append_of_le_length h

/-- The fallback guard is the disjunction of the four topic guards: the
keyword list on src/main.py line 143 is exactly the four topics'
keyword sets in order. -/
theorem topicKw_eq (q : String) :
    topicKw q = (priceKw q || sizeKw q || zoningKw q || statusKw q) := by
  simp [topicKw, allKeywords, priceKw, sizeKw, zoningKw, statusKw, Bool.or_assoc]

/-- The executable substring test agrees with the infix relation. -/
theorem infixOf_iff (kw q : List Char) : infixOf kw q = true ↔ kw <:+: q := by
  induction q with
  | nil => simp [infixOf, List.isEmpty_iff, List.infix_nil]
  | cons c t ih =>
    simp [infixOf, List.infix_cons_iff, ih, List.isPrefixOf_iff_prefix]

/-- A keyword containing a non-whitespace character never matches a
whitespace-only question. -/
theorem kwIn_false_of_whitespace (q : String) (hq : q.data.all Char.isWhitespace = true)
    (kw : String) (c : Char) (hc : c ∈ kw.data) (hw : c.isWhitespace = false) :
    kwIn q kw = false := by
  cases h : kwIn q kw with
  | false => rfl
  | true =>
    exfalso
    have hinf : kw.data <:+: q.data := (infixOf_iff kw.data q.data).mp h
    have hcq : c ∈ q.data := hinf.subset hc
    have := List.all_eq_true.mp hq c hcq
    rw [hw] at this
    exact Bool.false_ne_true this

/-- ASCII lower-casing fixes whitespace characters. -/
theorem toLower_whitespace (c : Char) (h : c.isWhitespace = true) : c.toLower = c := by
  simp [Char.isWhitespace] at h
  rcases h with ((h | h) | h) | h <;> subst h <;> decide

/-- Lower-casing a whitespace-only string keeps it whitespace-only. -/
theorem pyLower_whitespace (s : String) (h : s.data.all Char.isWhitespace = true) :
    (pyLower s).data.all Char.isWhitespace = true := by
  show (s.data.map Char.toLower).all Char.isWhitespace = true
  rw [List.all_eq_true] at h ⊢
  intro c hc
  rw [List.mem_map] at hc
  obtain ⟨a, ha, rfl⟩ := hc
  rw [toLower_whitespace a (h a ha)]
  exact h a ha

/-- The first three characters of a line with a fixed head. -/
theorem take3_append (p r : String) (h : 3 ≤ p.data.length) :
    take3 (p ++ r) = p.data.take 3 := by
  exact take_string_append p r 3 h

/-- The opening line starts with `You`. -/
theorem take3_openingLine (doc : Property) : take3 (openingLine doc) = "You".data := by
  rw [openingLine, take3_append _ _ (by decide)]
  decide

/-- Price-topic lines start with `- C` or `- P`. -/
theorem take3_mem_priceLines (doc : Property) (l : String) (h : l ∈ priceLines doc) :
    take3 l = "- C".data ∨ take3 l = "- P".data := by
  rw [priceLines] at h
  cases hp : doc.price with
  | some p =>
    simp only [hp, List.mem_singleton] at h
    subst h
    refine Or.inl ?_
    rw [take3_append _ _ (by decide)]
    decide
  | none =>
    simp only [hp, List.mem_singleton] at h
    subst h
    exact Or.inr (by decide)

/-- Size-topic lines start with `- I` or `- L`. -/
theorem take3_mem_sizeLines (doc : Property) (l : String) (h : l ∈ sizeLines doc) :
    take3 l = "- I".data ∨ take3 l = "- L".data := by
  rw [sizeLines, List.mem_append] at h
  rcases h with h | h
  · left
    cases hs : doc.size_sqft with
    | some s =>
      simp only [hs] at h
      by_cases h0 : s = 0
      · rw [if_pos h0] at h
        exact absurd h (List.not_mem_nil l)
      · rw [if_neg h0, List.mem_singleton] at h
        subst h
        rw [take3_append _ _ (by decide)]
        decide
    | none =>
      simp only [hs] at h
      exact absurd h (List.not_mem_nil l)
  · right
    cases ha : doc.lot_acres with
    | some a =>
      simp only [ha] at h
      by_cases h0 : a = 0
      · rw [if_pos h0] at h
        exact absurd h (List.not_mem_nil l)
      · rw [if_neg h0, List.mem_singleton] at h
        subst h
        rw [take3_append _ _ (by decide)]
        decide
    | none =>
      simp only [ha] at h
      exact absurd h (List.not_mem_nil l)

/-- Zoning-topic lines start with `- P`. -/
theorem take3_mem_zoningLines (doc : Property) (l : String) (h : l ∈ zoningLines doc) :
    take3 l = "- P".data := by
  rw [zoningLines] at h
  by_cases hz : zoningParts doc = []
  · rw [if_pos hz] at h
    exact absurd h (List.not_mem_nil l)
  · rw [if_neg hz, List.mem_singleton] at h
    subst h
    rw [take3_append _ _ (by decide)]
    decide

/-- The Status line starts with `- S`. -/
theorem take3_statusLine (doc : Property) : take3 (statusLine doc) = "- S".data := by
  rw [statusLine, take3_append _ _ (by decide)]
  decide

/-- Membership in a conditional block whose alternative is empty forces
membership in the block. -/
theorem mem_of_mem_ite_nil {c : Prop} [Decidable c] {X : List String} {l : String}
    (h : l ∈ (if c then X else [])) : l ∈ X := by
  by_cases hc : c
  · rwa [if_pos hc] at h
  · rw [if_neg hc] at h
    exact absurd h (List.not_mem_nil l)

/-- With at least one topic keyword present, every reply line starts
with `You` (the opening) or with a dash followed by one of the topic
line heads; in particular no fallback line is emitted. -/
theorem take3_mem_respondLines (doc : Property) (msg : String) (l : String)
    (ht : topicKw (pyLower msg) = true) (hl : l ∈ respondLines doc msg) :
    take3 l = "You".data ∨ take3 l = "- C".data ∨ take3 l = "- P".data ∨
      take3 l = "- I".data ∨ take3 l = "- L".data ∨ take3 l = "- S".data := by
  rw [respondLines] at hl
  simp only [ht, if_true, List.append_nil, List.mem_append, List.mem_singleton] at hl
  rcases hl with ((((h | h) | h) | h) | h)
  · exact Or.inl (by rw [h, take3_openingLine])
  · rcases take3_mem_priceLines doc l (mem_of_mem_ite_nil h) with h2 | h2
    · exact Or.inr (Or.inl h2)
    · exact Or.inr (Or.inr (Or.inl h2))
  · rcases take3_mem_sizeLines doc l (mem_of_mem_ite_nil h) with h2 | h2
    · exact Or.inr (Or.inr (Or.inr (Or.inl h2)))
    · exact Or.inr (Or.inr (Or.inr (Or.inr (Or.inl h2))))
  · exact Or.inr (Or.inr (Or.inl (take3_mem_zoningLines doc l (mem_of_mem_ite_nil h))))
  · have h3 := mem_of_mem_ite_nil h
    rw [List.mem_singleton] at h3
    exact Or.inr (Or.inr (Or.inr (Or.inr (Or.inr (by rw [h3, take3_statusLine])))))

/-- String append is associative. -/
theorem string_append_assoc (a b c : String) : (a ++ b) ++ c = a ++ (b ++ c) := by
  cases a with
  | mk x =>
    cases b with
    | mk y =>
      cases c with
      | mk z => exact congrArg String.mk (List.append_assoc x y z)

/-- A line with a fixed non-Status head of at least four characters is
not a Status line. -/
theorem isStatusLine_append_false (p r : String) (h4 : 4 ≤ p.data.length)
    (hp : (p.data.take 4 == statusHead) = false) : isStatusLine (p ++ r) = false := by
  rw [isStatusLine, take_string_append p r 4 h4]
  exact hp

/-- The opening line is not a Status line. -/
theorem isStatusLine_openingLine (doc : Property) : isStatusLine (openingLine doc) = false := by
  rw [openingLine]
  exact isStatusLine_append_false _ _ (by decide) (by decide)

/-- Filtering a conditional singleton block that is not a Status line
gives nothing. -/
theorem filter_ite_singleton_nil {c : Prop} [Decidable c] (l : String)
    (h : isStatusLine l = false) :
    (if c then ([] : List String) else [l]).filter isStatusLine = [] := by
  by_cases hc : c
  · rw [if_pos hc]
    rfl
  · rw [if_neg hc]
    simp [List.filter_cons, h]

/-- Filtering a conditional topic block whose alternative is empty. -/
theorem filter_ite_nil {c : Prop} [Decidable c] (X : List String)
    (h : X.filter isStatusLine = []) :
    (if c then X else []).filter isStatusLine = [] := by
  by_cases hc : c
  · rw [if_pos hc]
    exact h
  · rw [if_neg hc]
    rfl

/-- No Price-topic line is a Status line. -/
theorem filter_isStatusLine_priceLines (doc : Property) :
    (priceLines doc).filter isStatusLine = [] := by
  rw [priceLines]
  cases doc.price with
  | some p =>
    have h := isStatusLine_append_false "- Current guidance price is $" (fmtComma0 p ++ ".")
      (by decide) (by decide)
    simp [List.filter_cons, h]
  | none => decide

/-- No Size-topic line is a Status line. -/
theorem filter_isStatusLine_sizeLines (doc : Property) :
    (sizeLines doc).filter isStatusLine = [] := by
  rw [sizeLines, List.filter_append]
  have h1 : (match doc.size_sqft with
      | some s => if s = 0 then [] else ["- Interior size is approx. " ++ (fmtComma0 s ++ " sq ft.")]
      | none => ([] : List String)).filter isStatusLine = [] := by
    cases doc.size_sqft with
    | some s => exact filter_ite_singleton_nil _ (isStatusLine_append_false _ _ (by decide) (by decide))
    | none => rfl
  have h2 : (match doc.lot_acres with
      | some a => if a = 0 then [] else ["- Lot size is approx. " ++ (fmt2 a ++ " acres.")]
      | none => ([] : List String)).filter isStatusLine = [] := by
    cases doc.lot_acres with
    | some a => exact filter_ite_singleton_nil _ (isStatusLine_append_false _ _ (by decide) (by decide))
    | none => rfl
  rw [h1, h2]
  rfl

/-- No Zoning-topic line is a Status line. -/
theorem filter_isStatusLine_zoningLines (doc : Property) :
    (zoningLines doc).filter isStatusLine = [] := by
  rw [zoningLines]
  by_cases hz : zoningParts doc = []
  · rw [if_pos hz]
    rfl
  · rw [if_neg hz]
    have h := isStatusLine_append_false "- Property type: " (pyJoin ", " (zoningParts doc))
      (by decide) (by decide)
    simp [List.filter_cons, h]

/-- The Status line is a Status line. -/
theorem isStatusLine_statusLine (doc : Property) : isStatusLine (statusLine doc) = true := by
  rw [statusLine, isStatusLine, take_string_append _ _ 4 (by decide)]
  decide

/-- A price keyword makes the fallback guard fire. -/
theorem topicKw_of_priceKw (q : String) (h : priceKw q = true) : topicKw q = true := by
  rw [topicKw_eq, h]
  rfl

/-- A status keyword makes the fallback guard fire. -/
theorem topicKw_of_statusKw (q : String) (h : statusKw q = true) : topicKw q = true := by
  rw [topicKw_eq, h]
  simp

/-- C1 (corrected - amended form): for every stored Listing and every
question containing both a Price keyword and a Size keyword, the reply
is the opening line followed by the Price topic lines, then the Size
topic lines, then the remaining topic blocks, with no fallback; the
Price topic always contributes its one line (formatted price, or the
upon-request line), while the Size topic contributes exactly the lines
of its present-and-nonzero fields, which may be none. -/
theorem responder_additive_price_size (doc : Property) (message : String)
    (hp : priceKw (pyLower message) = true) (hs : sizeKw (pyLower message) = true) :
    respondLines doc message =
      [openingLine doc] ++ priceLines doc ++ sizeLines doc ++
        (if zoningKw (pyLower message) then zoningLines doc else []) ++
        (if statusKw (pyLower message) then [statusLine doc] else []) ∧
    priceLines doc ≠ [] := by
  constructor
  · rw [respondLines, if_pos hp, if_pos hs, if_pos (topicKw_of_priceKw _ hp), List.append_nil]
  · rw [priceLines]
    cases doc.price <;> simp

/-- C1 counterexample: the seeded Grandview Listing has no interior
size and no lot size, so the question `What's the price and size?`,
which contains both a Price and a Size keyword, yields a reply with a
price line but no size line at all — the claim that the reply always
contains both lines fails. -/
theorem responder_additive_counterexample :
    priceKw (pyLower "What's the price and size?") = true ∧
    sizeKw (pyLower "What's the price and size?") = true ∧
    sizeLines sampleRetirement = [] ∧
    respondLines sampleRetirement "What's the price and size?" =
      ["You're asking about Grandview Retirement Residence in Waterloo. Here's what I can share:",
       "- Pricing is available upon request."] := by
  refine ⟨by decide, by decide, by decide, by decide⟩

/-- C1 witness: the amended theorem applied to the seeded plaza Listing
(price 12500000, interior size 45000) and the spec's example question. -/
theorem responder_additive_witness :
    respondLines samplePlaza "What's the price and size?" =
      [openingLine samplePlaza] ++ priceLines samplePlaza ++ sizeLines samplePlaza ++
        (if zoningKw (pyLower "What's the price and size?") then zoningLines samplePlaza else []) ++
        (if statusKw (pyLower "What's the price and size?") then [statusLine samplePlaza] else []) ∧
    priceLines samplePlaza ≠ [] :=
  responder_additive_price_size samplePlaza "What's the price and size?" (by decide) (by decide)

/-- C2 (confirmed): with no topic keyword in the lower-cased question,
the reply is the opening line followed by the fallback block — the
highlights header plus the first five highlights as bullets when
highlights is non-empty, and exactly the fixed prompt line when it is
empty; with any topic keyword present, neither the header nor the
prompt appears anywhere in the reply. -/
theorem responder_fallback (doc : Property) (message : String) :
    (topicKw (pyLower message) = false →
      respondLines doc message = openingLine doc ::
        (if doc.highlights = [] then [promptLine]
         else "Key highlights:" :: (doc.highlights.take 5).map (fun h => "  • " ++ h))) ∧
    (topicKw (pyLower message) = true →
      "Key highlights:" ∉ respondLines doc message ∧ promptLine ∉ respondLines doc message) := by
  constructor
  · intro hf
    have hall := hf
    rw [topicKw_eq] at hall
    simp only [Bool.or_eq_false_iff] at hall
    obtain ⟨⟨⟨hp, hs⟩, hz⟩, hst⟩ := hall
    rw [respondLines, if_neg (by simp [hp]), if_neg (by simp [hs]), if_neg (by simp [hz]),
      if_neg (by simp [hst]), if_neg (by simp [hf])]
    by_cases hh : doc.highlights = []
    · simp [fallbackLines, hh]
    · simp [fallbackLines, hh]
  · intro ht
    constructor
    · intro hmem
      rcases take3_mem_respondLines doc message _ ht hmem with h | h | h | h | h | h <;>
        exact absurd h (by decide)
    · intro hmem
      rcases take3_mem_respondLines doc message _ ht hmem with h | h | h | h | h | h <;>
        exact absurd h (by decide)

/-- C2 witness: the theorem applied to the seeded Riverside Towers
Listing, at a keyword-free question and at a price question. -/
theorem responder_fallback_witness :
    respondLines sampleTowers "hi" = openingLine sampleTowers ::
      (if sampleTowers.highlights = [] then [promptLine]
       else "Key highlights:" :: (sampleTowers.highlights.take 5).map (fun h => "  • " ++ h)) ∧
    ("Key highlights:" ∉ respondLines sampleTowers "What is the price?" ∧
      promptLine ∉ respondLines sampleTowers "What is the price?") :=
  ⟨(responder_fallback sampleTowers "hi").1 (by decide),
   (responder_fallback sampleTowers "What is the price?").2 (by decide)⟩

/-- C3 (corrected - amended form): on an empty collection the seed
operation reports count 4 and inserts exactly the four fixed sample
Listings in order; on a non-empty collection it inserts nothing and
returns the existing document count. (The four samples span only three
distinct categories, not four — see the counterexample.) -/
theorem seed_demo_spec (st : Store) :
    (st.docs = [] →
      (seed_demo st).1 = ("Seeded demo properties", 4) ∧
      (seed_demo st).2.docs.map StoredDoc.prop = samples ∧
      (seed_demo st).2.docs.length = 4) ∧
    (st.docs ≠ [] →
      seed_demo st = (("Collection already seeded", st.docs.length), st)) := by
  constructor
  · intro h
    rw [seed_demo]
    simp only [h, List.length_nil, gt_iff_lt, lt_self_iff_false, if_false]
    refine ⟨rfl, ?_, ?_⟩ <;> simp [samples, create_document, h]
  · intro h
    rw [seed_demo]
    rw [if_pos ?_]
    exact List.length_pos.mpr h

/-- C3 counterexample: the four seeded Listings are not one per
category — the first and the third both have category `commercial`,
so their category values are not four distinct ones. -/
theorem seed_categories_counterexample :
    samples.map (fun p => p.category) =
      ["commercial", "development", "commercial", "hospitality"] ∧
    ¬ (samples.map (fun p => p.category)).Nodup := by
  refine ⟨by decide, by decide⟩

/-- C3 witness: the amended theorem applied to an empty store and to a
store already holding one document. -/
theorem seed_demo_witness :
    ((seed_demo ⟨0, []⟩).1 = ("Seeded demo properties", 4) ∧
      (seed_demo ⟨0, []⟩).2.docs.map StoredDoc.prop = samples ∧
      (seed_demo ⟨0, []⟩).2.docs.length = 4) ∧
    seed_demo ⟨5, [⟨0, samplePlaza⟩]⟩ =
      (("Collection already seeded", 1), ⟨5, [⟨0, samplePlaza⟩]⟩) :=
  ⟨(seed_demo_spec ⟨0, []⟩).1 rfl,
   (seed_demo_spec ⟨5, [⟨0, samplePlaza⟩]⟩).2 (by simp)⟩

/-- C4 (corrected - amended form): whenever the question contains a
Size keyword and the Listing's `lot_acres` is present and nonzero, the
reply contains the lot-size line rendering `lot_acres` with two decimal
places. -/
theorem size_lot_line (doc : Property) (message : String) (a : ℚ)
    (hkw : sizeKw (pyLower message) = true)
    (ha : doc.lot_acres = some a) (hnz : ¬ a = 0) :
    ("- Lot size is approx. " ++ (fmt2 a ++ " acres.")) ∈ respondLines doc message := by
  rw [respondLines]
  simp only [List.mem_append]
  refine Or.inl (Or.inl (Or.inl (Or.inr ?_)))
  rw [if_pos hkw, sizeLines]
  refine List.mem_append.mpr (Or.inr ?_)
  simp only [ha, if_neg hnz]
  exact List.mem_singleton.mpr rfl

/-- C4 counterexample: a Listing whose `lot_acres` is present (non-null)
but zero gets no lot-size line for a Size question — `if acres:` is a
truthiness test, so the claim as stated (present meaning non-null)
fails. -/
theorem size_lot_line_counterexample :
    lotZeroListing.lot_acres = some (mkRat 0 1) ∧
    sizeKw (pyLower "what size is the lot?") = true ∧
    respondLines lotZeroListing "what size is the lot?" =
      ["You're asking about Isherwood Plaza in Cambridge. Here's what I can share:",
       "- Interior size is approx. 45,000 sq ft."] := by
  refine ⟨rfl, by decide, by decide⟩

/-- C4 witness: the amended theorem applied to the seeded plaza Listing
(lot 3.5 acres) and the question `size`. -/
theorem size_lot_line_witness :
    ("- Lot size is approx. " ++ (fmt2 (mkRat 7 2) ++ " acres.")) ∈
      respondLines samplePlaza "size" :=
  size_lot_line samplePlaza "size" (mkRat 7 2) (by decide) rfl (by decide)

/-- C5 (confirmed): whenever the lower-cased question contains `status`
or `available`, the reply contains exactly one Status line — the lines
starting with `- St` are exactly one copy of the Status line — and that
line shows the status title-cased when status is a non-empty string and
the literal `Available` when it is empty, whatever the other fields
hold. -/
theorem status_topic_unconditional (doc : Property) (message : String)
    (h : statusKw (pyLower message) = true) :
    (respondLines doc message).filter isStatusLine = [statusLine doc] ∧
    statusLine doc =
      "- Status: " ++ (if doc.status = "" then "Available" else pyTitle doc.status) := by
  refine ⟨?_, rfl⟩
  rw [respondLines, if_pos h, if_pos (topicKw_of_statusKw _ h), List.append_nil]
  rw [List.filter_append, List.filter_append, List.filter_append, List.filter_append]
  rw [filter_ite_nil _ (filter_isStatusLine_priceLines doc),
    filter_ite_nil _ (filter_isStatusLine_sizeLines doc),
    filter_ite_nil _ (filter_isStatusLine_zoningLines doc)]
  simp [List.filter_cons, isStatusLine_openingLine doc, isStatusLine_statusLine doc]

/-- C5 witness: the theorem applied to the seeded Riverside Towers
Listing (status `under development`) and the question `status?`. -/
theorem status_topic_witness :
    (respondLines sampleTowers "status?").filter isStatusLine = [statusLine sampleTowers] ∧
    statusLine sampleTowers =
      "- Status: " ++ (if sampleTowers.status = "" then "Available" else pyTitle sampleTowers.status) :=
  status_topic_unconditional sampleTowers "status?" (by decide)

/-- C6 (confirmed): when some stored Listing already has the payload's
slug, create fails with HTTP 400 `Slug already exists` and the store is
returned unchanged — no document is inserted. -/
theorem create_conflict (st : Store) (payload : Property)
    (h : ∃ d ∈ st.docs, d.prop.slug = payload.slug) :
    create_property st payload = (.error ⟨400, "Slug already exists"⟩, st) := by
  unfold create_property
  cases hf : find_one_slug st payload.slug with
  | none =>
    exfalso
    rw [find_one_slug, List.find?_eq_none] at hf
    obtain ⟨d, hd, he⟩ := h
    exact hf d hd (by simp [he])
  | some d => rfl

/-- C6 witness: creating the plaza Listing again over a store that
already holds it fails with the conflict error and leaves the store as
it was. -/
theorem create_conflict_witness :
    create_property ⟨1, [⟨0, samplePlaza⟩]⟩ samplePlaza =
      (.error ⟨400, "Slug already exists"⟩, ⟨1, [⟨0, samplePlaza⟩]⟩) :=
  create_conflict ⟨1, [⟨0, samplePlaza⟩]⟩ samplePlaza
    ⟨⟨0, samplePlaza⟩, List.mem_singleton.mpr rfl, rfl⟩

/-- C7 (confirmed): when no stored Listing has the requested slug,
get-by-slug fails with HTTP 404 `Property not found` (never an empty
success); when the slug is found, the stored Listing is returned with
its internal id rendered as the string `id` field. -/
theorem get_by_slug_spec (st : Store) (slug : String) :
    ((∀ d ∈ st.docs, d.prop.slug ≠ slug) →
      get_property st slug = .error ⟨404, "Property not found"⟩) ∧
    (∀ d, find_one_slug st slug = some d →
      get_property st slug = .ok ⟨toString d.oid, d.prop⟩) := by
  constructor
  · intro h
    unfold get_property
    have hf : find_one_slug st slug = none := by
      rw [find_one_slug, List.find?_eq_none]
      intro d hd
      simp only [beq_iff_eq]
      exact h d hd
    rw [hf]
  · intro d hd
    unfold get_property
    rw [hd]

/-- C7 witness: the theorem applied to a one-document store, at a
missing slug and at the stored slug. -/
theorem get_by_slug_witness :
    get_property ⟨1, [⟨0, samplePlaza⟩]⟩ "missing-slug" =
      .error ⟨404, "Property not found"⟩ ∧
    get_property ⟨1, [⟨0, samplePlaza⟩]⟩ "isherwood-plaza" =
      .ok ⟨toString (0 : Nat), samplePlaza⟩ :=
  ⟨(get_by_slug_spec ⟨1, [⟨0, samplePlaza⟩]⟩ "missing-slug").1 (by decide),
   (get_by_slug_spec ⟨1, [⟨0, samplePlaza⟩]⟩ "isherwood-plaza").2 ⟨0, samplePlaza⟩ (by decide)⟩

/-- C8 (confirmed): the chat reply depends only on the document found
for the slug and on the message — two evaluations over stores agreeing
on that lookup give identical answers; in the embedding the responder
is a pure function, with no hidden state or time dependence. -/
theorem chat_deterministic (st₁ st₂ : Store) (slug message : String)
    (h : find_one_slug st₁ slug = find_one_slug st₂ slug) :
    chat_about_property st₁ slug message = chat_about_property st₂ slug message := by
  unfold chat_about_property
  rw [h]

/-- C8 witness: two different stores that agree on the plaza document
produce the same reply to the same question. -/
theorem chat_deterministic_witness :
    chat_about_property ⟨2, [⟨0, samplePlaza⟩, ⟨1, sampleTowers⟩]⟩ "isherwood-plaza" "price" =
      chat_about_property ⟨9, [⟨0, samplePlaza⟩]⟩ "isherwood-plaza" "price" :=
  chat_deterministic ⟨2, [⟨0, samplePlaza⟩, ⟨1, sampleTowers⟩]⟩ ⟨9, [⟨0, samplePlaza⟩]⟩
    "isherwood-plaza" "price" (by decide)

/-- C9 (confirmed): the responder is total — for every Listing and
every message the reply lines start with the opening line naming the
Listing's name and city, the reply string starts with that line, and a
whitespace-only (in particular empty) message is handled by the
fallback branch. -/
theorem responder_total (doc : Property) (message : String) :
    (∃ rest, respondLines doc message = openingLine doc :: rest) ∧
    (∃ rest, respond doc message = openingLine doc ++ rest) ∧
    (message.data.all Char.isWhitespace = true →
      respondLines doc message = openingLine doc :: fallbackLines doc) := by
  have h1 : ∃ rest, respondLines doc message = openingLine doc :: rest := ⟨_, rfl⟩
  refine ⟨h1, ?_, ?_⟩
  · obtain ⟨rest, hr⟩ := h1
    rw [respond, hr]
    cases rest with
    | nil => exact ⟨"", (String.append_empty _).symm⟩
    | cons b bs =>
      refine ⟨"\n" ++ pyJoin "\n" (b :: bs), ?_⟩
      exact string_append_assoc (openingLine doc) "\n" (pyJoin "\n" (b :: bs))
  · intro hw
    have hlow := pyLower_whitespace message hw
    have hp : priceKw (pyLower message) = false := by
      rw [priceKw,
        kwIn_false_of_whitespace _ hlow "price" 'p' (by decide) (by decide),
        kwIn_false_of_whitespace _ hlow "cost" 'c' (by decide) (by decide),
        kwIn_false_of_whitespace _ hlow "listing" 'l' (by decide) (by decide)]
      rfl
    have hs : sizeKw (pyLower message) = false := by
      rw [sizeKw,
        kwIn_false_of_whitespace _ hlow "size" 's' (by decide) (by decide),
        kwIn_false_of_whitespace _ hlow "square" 's' (by decide) (by decide),
        kwIn_false_of_whitespace _ hlow "sqft" 's' (by decide) (by decide)]
      rfl
    have hz : zoningKw (pyLower message) = false := by
      rw [zoningKw,
        kwIn_false_of_whitespace _ hlow "zoning" 'z' (by decide) (by decide),
        kwIn_false_of_whitespace _ hlow "use" 'u' (by decide) (by decide),
        kwIn_false_of_whitespace _ hlow "type" 't' (by decide) (by decide)]
      rfl
    have hst : statusKw (pyLower message) = false := by
      rw [statusKw,
        kwIn_false_of_whitespace _ hlow "status" 's' (by decide) (by decide),
        kwIn_false_of_whitespace _ hlow "available" 'a' (by decide) (by decide)]
      rfl
    have ht : topicKw (pyLower message) = false := by
      rw [topicKw_eq, hp, hs, hz, hst]
      rfl
    rw [respondLines, if_neg (by simp [hp]), if_neg (by simp [hs]), if_neg (by simp [hz]),
      if_neg (by simp [hst]), if_neg (by simp [ht])]
    simp

/-- C9 witness: the theorem applied to the seeded plaza Listing at the
empty message and at a whitespace-only message. -/
theorem responder_total_witness :
    respondLines samplePlaza "" = openingLine samplePlaza :: fallbackLines samplePlaza ∧
    respondLines samplePlaza " \t\n " = openingLine samplePlaza :: fallbackLines samplePlaza :=
  ⟨(responder_total samplePlaza "").2.2 (by decide),
   (responder_total samplePlaza " \t\n ").2.2 (by decide)⟩

/-- C10 (confirmed): a filter parameter supplied as the empty string
behaves exactly like an absent one — it contributes no key to the store
query, and normalizing any combination of empty-string parameters to
absent ones changes neither the query nor the returned Listings. -/
theorem empty_filters_unset (st : Store) (category development_type commercial_type hospitality_type city status : Option String) (limit : Nat) :
    (∀ key, qslot key (some "") = []) ∧
    buildQuery (orNone category) (orNone development_type) (orNone commercial_type)
        (orNone hospitality_type) (orNone city) (orNone status) =
      buildQuery category development_type commercial_type hospitality_type city status ∧
    list_properties st (orNone category) (orNone development_type) (orNone commercial_type)
        (orNone hospitality_type) (orNone city) (orNone status) limit =
      list_properties st category development_type commercial_type hospitality_type city status limit := by
  have hq : ∀ key v, qslot key (orNone v) = qslot key v := by
    intro key v
    cases v with
    | none => rfl
    | some s =>
      by_cases hs : s = ""
      · simp [orNone, qslot, hs]
      · simp [orNone, qslot, hs]
  refine ⟨fun key => by simp [qslot], ?_, ?_⟩
  · rw [buildQuery, buildQuery, hq, hq, hq, hq, hq, hq]
  · rw [list_properties, list_properties, buildQuery, buildQuery, hq, hq, hq, hq, hq, hq]

end Isherwood
